import Mathlib

set_option maxHeartbeats 1000000
set_option maxRecDepth 10000

/-!
Shallow embedding of `src/lazy-minting/lib/LazyMinter.js`.

The LazyMinter class builds EIP-712 typed-data vouchers and signs them with
an injected ethers Signer.  The embedding models:

* the constants and the `this.types` schema from the constructor;
* `_signingDomain` (lazy, memoized domain resolution via `signer.getChainId()`);
* `_formatVoucher` (the typed-data envelope);
* `createVoucher` (voucher assembly, digest computation, signing);
* the digest computation of the `ethers-eip712` dependency
  (`TypedDataUtils.encodeDigest`) and the EIP-191 behaviour of ethers'
  `Signer.signMessage`, neither of which is in `src/`, following the
  algorithm spelled out in the specification (§4 Steps 4–5) and the
  documented library semantics.

Bytes are natural numbers below 256, byte strings are `List Nat`.  The
keccak256 hash itself is an opaque parameter `keccak` of the digest
pipeline: every claim below holds for an arbitrary hash function, and
concrete witnesses instantiate it with an executable stand-in.
JavaScript promise failures are `Except`; the injected signer is an
oracle whose chain-id query outcomes are indexed by how many queries were
made before, which lets theorems count queries (the mutable part of the
model is explicit state passing: the minter value plus the query count).
-/

/-- Bytes are modelled as natural numbers (kept below 256 by construction). -/
abbrev Byte := Nat

/-- Constant `SIGNING_DOMAIN_NAME` (LazyMinter.js line 5). -/
def SIGNING_DOMAIN_NAME : String := "LazyNFT-Voucher"

/-- Constant `SIGNING_DOMAIN_VERSION` (LazyMinter.js line 6). -/
def SIGNING_DOMAIN_VERSION : String := "1"

/-- One named, typed field of an EIP-712 struct type, as in the objects of
`this.types` (LazyMinter.js lines 33–45). -/
structure TypeField where
  name : String
  type : String
deriving DecidableEq

/-- The `this.types` object built in the constructor: two keys,
`EIP712Domain` and `NFTVoucher`, each an ordered field list. -/
structure TypeSchema where
  EIP712Domain : List TypeField
  NFTVoucher : List TypeField
deriving DecidableEq

/-- The literal schema assigned in the constructor (LazyMinter.js lines 33–45). -/
def defaultTypes : TypeSchema where
  EIP712Domain :=
    [⟨"name", "string"⟩, ⟨"version", "string"⟩,
     ⟨"chainId", "uint256"⟩, ⟨"verifyingContract", "address"⟩]
  NFTVoucher :=
    [⟨"tokenId", "uint256"⟩, ⟨"minPrice", "uint256"⟩, ⟨"uri", "string"⟩]

/-- The voucher object `{ tokenId, uri, minPrice }` (LazyMinter.js line 64).
JavaScript numbers that are exact integers are modelled as `Int`, so that
negative inputs are representable. -/
structure NFTVoucher where
  tokenId : Int
  uri : String
  minPrice : Int
deriving DecidableEq

/-- The domain object built by `_signingDomain` (LazyMinter.js lines 84–89). -/
structure SigningDomain where
  name : String
  version : String
  verifyingContract : String
  chainId : Int
deriving DecidableEq

/-- The typed-data envelope returned by `_formatVoucher`
(LazyMinter.js lines 100–105). -/
structure TypedData where
  domain : SigningDomain
  types : TypeSchema
  primaryType : String
  message : NFTVoucher
deriving DecidableEq

/-- The per-instance state of a LazyMinter: the two constructor fields and
the `this._domain` cache slot (absent, i.e. `none`, until first resolved). -/
structure LazyMinter where
  contractAddress : String
  types : TypeSchema
  domain? : Option SigningDomain
deriving DecidableEq

/-- The constructor (LazyMinter.js lines 29–46): stores the contract
address, the schema literal, and leaves `this._domain` unset. -/
def mkLazyMinter (contractAddress : String) : LazyMinter :=
  ⟨contractAddress, defaultTypes, none⟩

/-- The injected ethers `Signer`, abstracted as an oracle.
`chainIdAt k` is the outcome of the `getChainId()` query when `k` queries
were already made on this signer; `rawSign` is the account key's raw
signing primitive over bytes (the spec's abstract capability
`sign(digestBytes) -> signatureBytes`). -/
structure SignerCap where
  chainIdAt : Nat → Except Unit Int
  rawSign : List Byte → Except Unit (List Byte)

/-- UTF-8 encoding of one Unicode code point. -/
def utf8Char (c : Nat) : List Byte :=
  if c < 128 then [c]
  else if c < 2048 then [192 + c / 64, 128 + c % 64]
  else if c < 65536 then [224 + c / 4096, 128 + c / 64 % 64, 128 + c % 64]
  else [240 + c / 262144, 128 + c / 4096 % 64, 128 + c / 64 % 64, 128 + c % 64]

/-- UTF-8 bytes of a string. -/
def utf8Bytes (s : String) : List Byte :=
  (s.toList.map fun c => utf8Char c.toNat).flatten

/-- 32-byte big-endian encoding of a `uint256` value; errors when the value
is not representable (negative or at least 2^256), as the encoder in the
digest library throws on such values. -/
def uint256Bytes (n : Int) : Except Unit (List Byte) :=
  if 0 ≤ n ∧ n < 2 ^ 256 then
    Except.ok ((List.range 32).map fun i => n.toNat / 256 ^ (31 - i) % 256)
  else Except.error ()

/-- Value of one hexadecimal digit character. -/
def hexDigitVal (c : Char) : Option Nat :=
  if 48 ≤ c.toNat ∧ c.toNat ≤ 57 then some (c.toNat - 48)
  else if 97 ≤ c.toNat ∧ c.toNat ≤ 102 then some (c.toNat - 87)
  else if 65 ≤ c.toNat ∧ c.toNat ≤ 70 then some (c.toNat - 55)
  else none

/-- Numeric value of a hexadecimal digit string (`none` on a bad digit). -/
def hexNat? (cs : List Char) : Option Nat :=
  cs.foldlM (fun acc c => (hexDigitVal c).map fun v => acc * 16 + v) 0

/-- EIP-712 encoding of an `address` field: the 20-byte hex address
left-padded to 32 bytes; errors on a malformed address, as the library
does. -/
def addressBytes (s : String) : Except Unit (List Byte) :=
  let hexPart : List Char :=
    match s.toList with
    | '0' :: 'x' :: rest => rest
    | cs => cs
  match hexNat? hexPart with
  | some n =>
      if hexPart.length = 40 then
        Except.ok ((List.range 32).map fun i => n / 256 ^ (31 - i) % 256)
      else Except.error ()
  | none => Except.error ()

/-- The canonical EIP-712 type signature string, e.g.
"NFTVoucher(uint256 tokenId,uint256 minPrice,string uri)". -/
def typeSignatureOf (name : String) (fields : List TypeField) : String :=
  name ++ "(" ++ String.intercalate "," (fields.map fun f => f.type ++ " " ++ f.name) ++ ")"

/-- Modelled from the spec (§4 Step 4; the computation lives in the
`ethers-eip712` dependency, not under `src/`): hashStruct of the signing
domain under the `EIP712Domain` type — keccak256(typeHash ‖ fields encoded
in declared order), string fields hashed, uint256/address fields padded to
32 bytes. -/
def hashDomain (keccak : List Byte → List Byte) (types : TypeSchema)
    (d : SigningDomain) : Except Unit (List Byte) :=
  match uint256Bytes d.chainId, addressBytes d.verifyingContract with
  | Except.ok chainIdEnc, Except.ok addrEnc =>
      Except.ok (keccak
        (keccak (utf8Bytes (typeSignatureOf "EIP712Domain" types.EIP712Domain)) ++
         keccak (utf8Bytes d.name) ++ keccak (utf8Bytes d.version) ++
         chainIdEnc ++ addrEnc))
  | _, _ => Except.error ()

/-- Modelled from the spec (§4 Step 4): hashStruct of the voucher message
under the primary type, fields encoded in declared order
(tokenId, minPrice as uint256; uri as the hash of its UTF-8 bytes). -/
def hashVoucher (keccak : List Byte → List Byte) (primaryType : String)
    (fields : List TypeField) (v : NFTVoucher) : Except Unit (List Byte) :=
  match uint256Bytes v.tokenId, uint256Bytes v.minPrice with
  | Except.ok tokenIdEnc, Except.ok minPriceEnc =>
      Except.ok (keccak
        (keccak (utf8Bytes (typeSignatureOf primaryType fields)) ++
         tokenIdEnc ++ minPriceEnc ++ keccak (utf8Bytes v.uri)))
  | _, _ => Except.error ()

/-- Modelled from the spec (§4 Step 4): `TypedDataUtils.encodeDigest` of
the `ethers-eip712` dependency — keccak256(0x19 0x01 ‖ hashStruct(domain)
‖ hashStruct(message)), where the message type is looked up under the
envelope's primaryType. -/
def encodeDigest (keccak : List Byte → List Byte) (td : TypedData) :
    Except Unit (List Byte) :=
  if td.primaryType = "NFTVoucher" then
    match hashDomain keccak td.types td.domain with
    | Except.error e => Except.error e
    | Except.ok hd =>
      match hashVoucher keccak td.primaryType td.types.NFTVoucher td.message with
      | Except.error e => Except.error e
      | Except.ok hm => Except.ok (keccak (25 :: 1 :: (hd ++ hm)))
  else Except.error ()

/-- The EIP-191 personal-message envelope that ethers' `Signer.signMessage`
wraps around its argument: the UTF-8 bytes of
"\x19Ethereum Signed Message:\n" followed by the decimal byte length,
then the message bytes themselves. -/
def eip191Envelope (msg : List Byte) : List Byte :=
  utf8Bytes ("\x19Ethereum Signed Message:\n" ++ toString msg.length) ++ msg

/-- Modelled from the documented semantics of ethers `Signer.signMessage`
(not code under `src/`): it does NOT raw-sign its argument; it raw-signs
the keccak256 hash of the EIP-191 personal-message envelope of the
argument. -/
def signMessage (keccak : List Byte → List Byte) (cap : SignerCap)
    (msg : List Byte) : Except Unit (List Byte) :=
  cap.rawSign (keccak (eip191Envelope msg))

/-- Failure step of a `createVoucher` call.  The code propagates the
underlying rejection unmodified; the model tags which step rejected:
the chain-id query (`_signingDomain`), the digest encoding, or the
signature request. -/
inductive LMError where
  | domainResolutionError
  | encodingError
  | signingError
deriving DecidableEq

/-- `_signingDomain` (LazyMinter.js lines 79–91): return the cached
`this._domain` when present, otherwise query `getChainId()` (consuming one
oracle index), build the domain object, cache it, and return it.  A failed
query propagates before the cache assignment runs. -/
def signingDomain (cap : SignerCap) (m : LazyMinter) (q : Nat) :
    Except LMError SigningDomain × LazyMinter × Nat :=
  match m.domain? with
  | some d => (Except.ok d, m, q)
  | none =>
    match cap.chainIdAt q with
    | Except.error _ => (Except.error LMError.domainResolutionError, m, q + 1)
    | Except.ok chainId =>
      let d : SigningDomain :=
        ⟨SIGNING_DOMAIN_NAME, SIGNING_DOMAIN_VERSION, m.contractAddress, chainId⟩
      (Except.ok d, { m with domain? := some d }, q + 1)

/-- `_formatVoucher` (LazyMinter.js lines 98–106): resolve the domain, then
wrap the voucher in the typed-data envelope with `primaryType: 'NFTVoucher'`
and `types: this.types`. -/
def formatVoucher (cap : SignerCap) (m : LazyMinter) (q : Nat)
    (voucher : NFTVoucher) : Except LMError TypedData × LazyMinter × Nat :=
  match signingDomain cap m q with
  | (Except.error e, m1, q1) => (Except.error e, m1, q1)
  | (Except.ok d, m1, q1) => (Except.ok ⟨d, m1.types, "NFTVoucher", voucher⟩, m1, q1)

/-- The `{ voucher, signature, digest }` object returned by `createVoucher`
(LazyMinter.js lines 68–72). -/
structure CreateVoucherResult where
  voucher : NFTVoucher
  signature : List Byte
  digest : List Byte
deriving DecidableEq

/-- `createVoucher(tokenId, uri, minPrice)` (LazyMinter.js lines 63–73):
assemble the voucher object, format it (which resolves and caches the
domain), compute the digest, and pass the digest to `signer.signMessage`.
Any rejection propagates, carrying the updated minter state and query
count. -/
def createVoucher (keccak : List Byte → List Byte) (cap : SignerCap)
    (m : LazyMinter) (q : Nat) (tokenId : Int) (uri : String) (minPrice : Int) :
    Except LMError CreateVoucherResult × LazyMinter × Nat :=
  let voucher : NFTVoucher := ⟨tokenId, uri, minPrice⟩
  match formatVoucher cap m q voucher with
  | (Except.error e, m1, q1) => (Except.error e, m1, q1)
  | (Except.ok td, m1, q1) =>
    match encodeDigest keccak td with
    | Except.error _ => (Except.error LMError.encodingError, m1, q1)
    | Except.ok digest =>
      match signMessage keccak cap digest with
      | Except.error _ => (Except.error LMError.signingError, m1, q1)
      | Except.ok signature => (Except.ok ⟨voucher, signature, digest⟩, m1, q1)

/-- `createVoucher(tokenId, uri)` with the JavaScript default parameter
`minPrice = 0` (LazyMinter.js line 63). -/
def createVoucherNoPrice (keccak : List Byte → List Byte) (cap : SignerCap)
    (m : LazyMinter) (q : Nat) (tokenId : Int) (uri : String) :
    Except LMError CreateVoucherResult × LazyMinter × Nat :=
  createVoucher keccak cap m q tokenId uri 0

/-- A sequential run of `createVoucher` calls on one minter instance,
threading the cached-domain state and the chain-id query count. -/
def runCalls (keccak : List Byte → List Byte) (cap : SignerCap) :
    List (Int × String × Int) → LazyMinter → Nat → LazyMinter × Nat
  | [], m, q => (m, q)
  | (t, u, p) :: rest, m, q =>
    let r := createVoucher keccak cap m q t u p
    runCalls keccak cap rest r.2.1 r.2.2

/-- Whether an `Except` value is a success. -/
def exceptOk {ε α : Type} : Except ε α → Bool
  | Except.ok _ => true
  | Except.error _ => false

/-- The digest of a call outcome, when the call succeeded. -/
def digestOf {ε : Type} (r : Except ε CreateVoucherResult) : Option (List Byte) :=
  (Except.toOption r).map fun res => res.digest

instance {ε α : Type} [DecidableEq ε] [DecidableEq α] : DecidableEq (Except ε α) :=
  fun a b =>
    match a, b with
    | Except.ok x, Except.ok y =>
      if h : x = y then Decidable.isTrue (by rw [h])
      else Decidable.isFalse (by intro hh; cases hh; exact h rfl)
    | Except.error x, Except.error y =>
      if h : x = y then Decidable.isTrue (by rw [h])
      else Decidable.isFalse (by intro hh; cases hh; exact h rfl)
    | Except.ok _, Except.error _ => Decidable.isFalse (by intro hh; cases hh)
    | Except.error _, Except.ok _ => Decidable.isFalse (by intro hh; cases hh)

/-- Executable 32-byte stand-in hash used to instantiate the opaque
`keccak` parameter in concrete witnesses. -/
def demoHash (l : List Byte) : List Byte :=
  (List.range 32).map fun i => (l.foldl (fun a b => (a * 31 + b + 1) % 1000003) 7 + i) % 256

/-- A well-formed 20-byte contract address for witnesses. -/
def demoAddr : String := "0xabcdefabcdefabcdefabcdefabcdefabcdefabcd"

/-- A signer whose chain-id query always succeeds and whose raw signing
primitive is the identity (so the produced signature exposes exactly the
bytes that were signed). -/
def demoCap : SignerCap :=
  ⟨fun _ => Except.ok 31337, fun l => Except.ok l⟩

/-- A signer whose chain-id query always fails. -/
def demoFailChainCap : SignerCap :=
  ⟨fun _ => Except.error (), fun l => Except.ok l⟩

/-- A signer whose chain-id query succeeds but whose signing primitive
always rejects. -/
def demoFailSignCap : SignerCap :=
  ⟨fun _ => Except.ok 31337, fun _ => Except.error ()⟩

/-- A fixed successful demo call used by several witnesses. -/
def demoRun : Except LMError CreateVoucherResult × LazyMinter × Nat :=
  createVoucher demoHash demoCap (mkLazyMinter demoAddr) 0 1 "ipfs://abc" 0

/-- The outcome of a fixed demo `_formatVoucher` call. -/
def demoEnvelopeOut : Except LMError TypedData × LazyMinter × Nat :=
  formatVoucher demoCap (mkLazyMinter demoAddr) 0 ⟨1, "ipfs://abc", 0⟩

/-- The typed-data envelope of the demo call (with an inert fallback that
the success conjunct of its counterexample rules out). -/
def demoEnvelope : TypedData :=
  (Except.toOption demoEnvelopeOut.1).getD ⟨⟨"", "", "", 0⟩, defaultTypes, "", ⟨0, "", 0⟩⟩

/-- A demo call with a negative tokenId. -/
def demoNegRun : Except LMError CreateVoucherResult × LazyMinter × Nat :=
  createVoucher demoHash demoCap (mkLazyMinter demoAddr) 0 (-1) "ipfs://abc" 0

/-- A demo call whose signing primitive rejects. -/
def demoSignFailRun : Except LMError CreateVoucherResult × LazyMinter × Nat :=
  createVoucher demoHash demoFailSignCap (mkLazyMinter demoAddr) 0 1 "ipfs://abc" 0

/-- The domain object `_signingDomain` builds for a minter from a freshly
queried chain id (LazyMinter.js lines 84–89). -/
def resolvedDomain (m : LazyMinter) (c : Int) : SigningDomain :=
  ⟨SIGNING_DOMAIN_NAME, SIGNING_DOMAIN_VERSION, m.contractAddress, c⟩

/-- A minter whose `_domain` slot has just been filled with the freshly
resolved domain. -/
def withDomain (m : LazyMinter) (c : Int) : LazyMinter :=
  { m with domain? := some (resolvedDomain m c) }

/-- The pure digest-and-sign tail of `createVoucher` once the typed-data
envelope is fixed (LazyMinter.js lines 66–72). -/
def digestAndSign (keccak : List Byte → List Byte) (cap : SignerCap)
    (td : TypedData) : Except LMError CreateVoucherResult :=
  match encodeDigest keccak td with
  | Except.error _ => Except.error LMError.encodingError
  | Except.ok digest =>
    match signMessage keccak cap digest with
    | Except.error _ => Except.error LMError.signingError
    | Except.ok signature => Except.ok ⟨td.message, signature, digest⟩

/-- Helper: `_signingDomain` with a cached domain returns it and touches
nothing. -/
theorem signingDomain_cached (cap : SignerCap) (m : LazyMinter) (q : Nat)
    (d : SigningDomain) (h : m.domain? = some d) :
    signingDomain cap m q = (Except.ok d, m, q) := by
  simp [signingDomain, h]

/-- Helper: `_signingDomain` on an unresolved instance with a successful
chain-id query builds, caches and returns the domain object, consuming one
query. -/
theorem signingDomain_resolve (cap : SignerCap) (m : LazyMinter) (q : Nat)
    (c : Int) (h : m.domain? = none) (hc : cap.chainIdAt q = Except.ok c) :
    signingDomain cap m q = (Except.ok (resolvedDomain m c), withDomain m c, q + 1) := by
  simp [signingDomain, h, hc, resolvedDomain, withDomain]

/-- Helper: `_signingDomain` on an unresolved instance with a failing
chain-id query rejects, consumes one query, and leaves the cache empty. -/
theorem signingDomain_fail (cap : SignerCap) (m : LazyMinter) (q : Nat)
    (h : m.domain? = none) (hc : cap.chainIdAt q = Except.error ()) :
    signingDomain cap m q = (Except.error LMError.domainResolutionError, m, q + 1) := by
  simp [signingDomain, h, hc]

/-- Helper: the minter state and query count after `createVoucher` are
exactly those after its `_signingDomain` step — the later digest and
signing steps never touch them. -/
theorem createVoucher_state (keccak : List Byte → List Byte) (cap : SignerCap)
    (m : LazyMinter) (q : Nat) (t : Int) (u : String) (p : Int) :
    (createVoucher keccak cap m q t u p).2 = (signingDomain cap m q).2 := by
  unfold createVoucher formatVoucher
  rcases hD : signingDomain cap m q with ⟨res, m1, q1⟩
  rcases res with e | d
  · simp
  · rcases hE : encodeDigest keccak ⟨d, m1.types, "NFTVoucher", ⟨t, u, p⟩⟩ with e | dig
    · simp [hE]
    · rcases hS : signMessage keccak cap dig with e | sig <;> simp [hE, hS]

/-- Helper: with a cached domain, `createVoucher` reduces to the pure
digest-and-sign pipeline over the cached domain and `this.types`, leaving
state and query count unchanged. -/
theorem createVoucher_resolved_result (keccak : List Byte → List Byte)
    (cap : SignerCap) (m : LazyMinter) (q : Nat) (t : Int) (u : String) (p : Int)
    (d : SigningDomain) (h : m.domain? = some d) :
    createVoucher keccak cap m q t u p =
      (digestAndSign keccak cap ⟨d, m.types, "NFTVoucher", ⟨t, u, p⟩⟩, m, q) := by
  simp only [createVoucher, formatVoucher]
  rw [signingDomain_cached cap m q d h]
  cases hE : encodeDigest keccak ⟨d, m.types, "NFTVoucher", ⟨t, u, p⟩⟩ with
  | error e => simp [digestAndSign, hE]
  | ok dig =>
    cases hS : signMessage keccak cap dig with
    | error e => simp [digestAndSign, hE, hS]
    | ok sig => simp [digestAndSign, hE, hS]

/-- Helper: on an unresolved instance with a successful chain-id query,
`createVoucher` caches the freshly built domain and runs the same pure
pipeline over it. -/
theorem createVoucher_resolve_result (keccak : List Byte → List Byte)
    (cap : SignerCap) (m : LazyMinter) (q : Nat) (t : Int) (u : String) (p : Int)
    (c : Int) (h : m.domain? = none) (hc : cap.chainIdAt q = Except.ok c) :
    createVoucher keccak cap m q t u p =
      (digestAndSign keccak cap ⟨resolvedDomain m c, m.types, "NFTVoucher", ⟨t, u, p⟩⟩,
       withDomain m c, q + 1) := by
  simp only [createVoucher, formatVoucher]
  rw [signingDomain_resolve cap m q c h hc]
  cases hE : encodeDigest keccak ⟨resolvedDomain m c, m.types, "NFTVoucher", ⟨t, u, p⟩⟩ with
  | error e => simp [digestAndSign, hE, withDomain]
  | ok dig =>
    cases hS : signMessage keccak cap dig with
    | error e => simp [digestAndSign, hE, hS, withDomain]
    | ok sig => simp [digestAndSign, hE, hS, withDomain]

/-- Helper: on an unresolved instance with a failing chain-id query,
`createVoucher` rejects with the domain-resolution failure, leaves the
instance unchanged, and consumed one query. -/
theorem createVoucher_domain_fail (keccak : List Byte → List Byte)
    (cap : SignerCap) (m : LazyMinter) (q : Nat) (t : Int) (u : String) (p : Int)
    (h : m.domain? = none) (hc : cap.chainIdAt q = Except.error ()) :
    createVoucher keccak cap m q t u p =
      (Except.error LMError.domainResolutionError, m, q + 1) := by
  unfold createVoucher formatVoucher
  rw [signingDomain_fail cap m q h hc]

/-- Helper: the `uint256` encoder rejects every negative value. -/
theorem uint256Bytes_neg (n : Int) (h : n < 0) : uint256Bytes n = Except.error () := by
  unfold uint256Bytes
  rw [if_neg]
  intro hcon
  exact absurd hcon.1 (by omega)

/-- Helper: hashStruct of a voucher whose tokenId is negative rejects. -/
theorem hashVoucher_neg (keccak : List Byte → List Byte) (pt : String)
    (fields : List TypeField) (v : NFTVoucher) (h : v.tokenId < 0) :
    hashVoucher keccak pt fields v = Except.error () := by
  unfold hashVoucher
  rw [uint256Bytes_neg v.tokenId h]

/-- Helper: the digest computation rejects whenever the message's tokenId
is negative, whatever the domain encodes to. -/
theorem encodeDigest_neg (keccak : List Byte → List Byte) (td : TypedData)
    (h : td.message.tokenId < 0) : encodeDigest keccak td = Except.error () := by
  unfold encodeDigest
  by_cases hpt : td.primaryType = "NFTVoucher"
  · rw [if_pos hpt]
    cases hD : hashDomain keccak td.types td.domain with
    | error e => rfl
    | ok hd => rw [hashVoucher_neg keccak td.primaryType td.types.NFTVoucher td.message h]
  · rw [if_neg hpt]

/-- Helper: `_signingDomain` never changes the constructor fields. -/
theorem signingDomain_fields (cap : SignerCap) (m : LazyMinter) (q : Nat) :
    ((signingDomain cap m q).2.1).contractAddress = m.contractAddress ∧
    ((signingDomain cap m q).2.1).types = m.types := by
  cases h : m.domain? with
  | some d => simp [signingDomain, h]
  | none => cases hc : cap.chainIdAt q <;> simp [signingDomain, h, hc]

/-- Helper: the pure pipeline rejects with the encoding failure whenever the
envelope's tokenId is negative. -/
theorem digestAndSign_neg (keccak : List Byte → List Byte) (cap : SignerCap)
    (td : TypedData) (h : td.message.tokenId < 0) :
    digestAndSign keccak cap td = Except.error LMError.encodingError := by
  unfold digestAndSign
  rw [encodeDigest_neg keccak td h]

/-- Claim C1 (refuted — code bug): the claim says the signature returned by
a successful createVoucher call is produced by the signing capability over
exactly the 32-byte EIP-712 digest bytes, signed raw.  The code instead
passes the digest to ethers `signMessage`, which raw-signs the keccak256 of
the EIP-191 prefixed envelope of the digest.  At a concrete successful call
whose raw signing primitive is the identity, the returned signature is
exactly the hash of the prefixed envelope of the returned 32-byte digest
and differs from the digest itself, so the raw primitive was not applied
to the digest. -/
theorem C1_signature_is_prefixed_rehash :
    exceptOk demoRun.1 = true ∧
    ((Except.toOption demoRun.1).map fun res =>
      ((res.digest.length == 32 &&
        res.signature == demoHash (eip191Envelope res.digest)) &&
       !(res.signature == res.digest))) = some true :=
  ⟨rfl, rfl⟩

/-- Claim C2 counterexample: the structured-data envelope passed to the
digest computation at a concrete createVoucher call has primaryType
"NFTVoucher", which is not the "Voucher" the claim requires (the voucher
type in the schema is likewise named NFTVoucher). -/
theorem C2_counterexample_primaryType :
    exceptOk demoEnvelopeOut.1 = true ∧
    demoEnvelope.primaryType = "NFTVoucher" ∧
    "NFTVoucher" ≠ "Voucher" :=
  ⟨rfl, rfl, by decide⟩

/-- Claim C2 (amended): for every `_formatVoucher` call on a minter that
holds the constructor schema, the envelope passed to the digest computation
has primaryType "NFTVoucher" (not "Voucher"), and its schema maps exactly
the four-field EIP712Domain type and a three-field type named NFTVoucher
with fields in the order tokenId=uint256, minPrice=uint256, uri=string;
the message is the given voucher. -/
theorem C2_envelope_schema (cap : SignerCap) (m : LazyMinter) (q : Nat)
    (v : NFTVoucher) (td : TypedData)
    (h : m.types = defaultTypes) (hok : (formatVoucher cap m q v).1 = Except.ok td) :
    td.primaryType = "NFTVoucher" ∧
    td.types.EIP712Domain =
      [⟨"name", "string"⟩, ⟨"version", "string"⟩,
       ⟨"chainId", "uint256"⟩, ⟨"verifyingContract", "address"⟩] ∧
    td.types.NFTVoucher =
      [⟨"tokenId", "uint256"⟩, ⟨"minPrice", "uint256"⟩, ⟨"uri", "string"⟩] ∧
    td.message = v := by
  have htypes := (signingDomain_fields cap m q).2
  unfold formatVoucher at hok
  rcases hD : signingDomain cap m q with ⟨res, m1, q1⟩
  rw [hD] at hok htypes
  rcases res with e | d
  · simp at hok
  · simp at hok htypes
    subst hok
    refine ⟨rfl, ?_, ?_, rfl⟩
    · show m1.types.EIP712Domain = _
      rw [htypes, h]
      rfl
    · show m1.types.NFTVoucher = _
      rw [htypes, h]
      rfl

/-- Claim C2 witness: the amended schema statement holds at the demo
envelope. -/
theorem C2_envelope_schema_witness :
    demoEnvelope.primaryType = "NFTVoucher" ∧
    demoEnvelope.types.EIP712Domain =
      [⟨"name", "string"⟩, ⟨"version", "string"⟩,
       ⟨"chainId", "uint256"⟩, ⟨"verifyingContract", "address"⟩] ∧
    demoEnvelope.types.NFTVoucher =
      [⟨"tokenId", "uint256"⟩, ⟨"minPrice", "uint256"⟩, ⟨"uri", "string"⟩] ∧
    demoEnvelope.message = ⟨1, "ipfs://abc", 0⟩ :=
  C2_envelope_schema demoCap (mkLazyMinter demoAddr) 0 ⟨1, "ipfs://abc", 0⟩
    demoEnvelope rfl rfl

/-- Claim C3 counterexample: with tokenId = -1 the call does NOT fail
before domain-resolution work — it performs the chain-id query (count goes
to one), caches the resolved domain, and only then fails, in the digest
encoding step; no pre-validation error exists. -/
theorem C3_counterexample_no_prevalidation :
    demoNegRun.2.2 = 1 ∧
    demoNegRun.2.1.domain? = some ⟨"LazyNFT-Voucher", "1", demoAddr, 31337⟩ ∧
    demoNegRun.1 = Except.error LMError.encodingError :=
  ⟨rfl, rfl, rfl⟩

/-- Claim C3 (amended): createVoucher performs no input validation of its
own; for a negative tokenId on an unresolved instance whose chain-id query
succeeds, the call first resolves and caches the domain (consuming the
query) and then fails in the digest-encoding step, so no signature is
produced but domain work was already done. -/
theorem C3_invalid_input_after_domain (keccak : List Byte → List Byte)
    (cap : SignerCap) (m : LazyMinter) (q : Nat) (t : Int) (u : String) (p : Int)
    (c : Int) (ht : t < 0) (h : m.domain? = none) (hc : cap.chainIdAt q = Except.ok c) :
    createVoucher keccak cap m q t u p =
      (Except.error LMError.encodingError, withDomain m c, q + 1) := by
  rw [createVoucher_resolve_result keccak cap m q t u p c h hc,
      digestAndSign_neg keccak cap ⟨resolvedDomain m c, m.types, "NFTVoucher", ⟨t, u, p⟩⟩ ht]

/-- Claim C3 witness: the amended statement evaluated at tokenId = -1. -/
theorem C3_invalid_input_after_domain_witness :
    createVoucher demoHash demoCap (mkLazyMinter demoAddr) 0 (-1) "ipfs://abc" 0 =
      (Except.error LMError.encodingError, withDomain (mkLazyMinter demoAddr) 31337, 1) :=
  C3_invalid_input_after_domain demoHash demoCap (mkLazyMinter demoAddr) 0 (-1)
    "ipfs://abc" 0 31337 (by decide) rfl rfl

/-- Claim C4: when the chain-id query fails, createVoucher fails with the
domain-resolution failure, producing no digest or signature; the minter is
returned unchanged (the domain cache is not updated), the failed query was
counted, and a subsequent call performs the chain-id query again (the query
count advances past the failure). -/
theorem C4_domain_query_failure (keccak : List Byte → List Byte) (cap : SignerCap)
    (m : LazyMinter) (q : Nat) (t : Int) (u : String) (p : Int)
    (h : m.domain? = none) (hc : cap.chainIdAt q = Except.error ()) :
    createVoucher keccak cap m q t u p =
      (Except.error LMError.domainResolutionError, m, q + 1) ∧
    (createVoucher keccak cap m (q + 1) t u p).2.2 = q + 1 + 1 := by
  constructor
  · exact createVoucher_domain_fail keccak cap m q t u p h hc
  · rw [createVoucher_state keccak cap m (q + 1) t u p]
    cases hc2 : cap.chainIdAt (q + 1) with
    | error e =>
      cases e
      rw [signingDomain_fail cap m (q + 1) h hc2]
    | ok c =>
      rw [signingDomain_resolve cap m (q + 1) c h hc2]

/-- Claim C4 witness: the domain-failure behaviour at a concrete signer
whose chain-id query always rejects. -/
theorem C4_domain_query_failure_witness :
    createVoucher demoHash demoFailChainCap (mkLazyMinter demoAddr) 0 1 "ipfs://abc" 0 =
      (Except.error LMError.domainResolutionError, mkLazyMinter demoAddr, 1) ∧
    (createVoucher demoHash demoFailChainCap (mkLazyMinter demoAddr) 1 1 "ipfs://abc" 0).2.2 = 2 :=
  C4_domain_query_failure demoHash demoFailChainCap (mkLazyMinter demoAddr) 0 1
    "ipfs://abc" 0 rfl rfl

/-- Helper: invariant for sequential runs — either the instance is fresh
with no query made yet (and the first query would succeed), or the domain
is cached and at most one query was ever made; either way the final query
count stays at most one. -/
theorem runCalls_le_one (keccak : List Byte → List Byte) (cap : SignerCap)
    (calls : List (Int × String × Int)) :
    ∀ m q, (m.domain? = none ∧ q = 0 ∧ exceptOk (cap.chainIdAt 0) = true) ∨
           ((∃ d, m.domain? = some d) ∧ q ≤ 1) →
    (runCalls keccak cap calls m q).2 ≤ 1 := by
  induction calls with
  | nil =>
    intro m q h
    rcases h with ⟨_, hq, _⟩ | ⟨_, hq⟩
    · simp [runCalls, hq]
    · simpa [runCalls] using hq
  | cons head rest ih =>
    intro m q h
    obtain ⟨t, u, p⟩ := head
    show (runCalls keccak cap rest (createVoucher keccak cap m q t u p).2.1
      (createVoucher keccak cap m q t u p).2.2).2 ≤ 1
    apply ih
    have hst := createVoucher_state keccak cap m q t u p
    rcases h with ⟨hm, hq, hok⟩ | ⟨⟨d, hd⟩, hq⟩
    · subst hq
      cases hc : cap.chainIdAt 0 with
      | error e =>
        rw [hc] at hok
        exact absurd hok (by simp [exceptOk])
      | ok c =>
        rw [signingDomain_resolve cap m 0 c hm hc] at hst
        right
        refine ⟨⟨resolvedDomain m c, ?_⟩, ?_⟩
        · rw [hst]
          rfl
        · rw [hst]
    · rw [signingDomain_cached cap m q d hd] at hst
      right
      refine ⟨⟨d, ?_⟩, ?_⟩
      · rw [hst]
        exact hd
      · rw [hst]
        exact hq

/-- Claim C5: on one Signer instance whose chain-id query succeeds, any
sequential run of createVoucher calls starting from a freshly constructed
minter invokes the chain-id query at most once: after the first successful
resolution every later call reuses the cached domain without re-querying,
so the final query count never exceeds one. -/
theorem C5_chain_query_at_most_once (keccak : List Byte → List Byte)
    (cap : SignerCap) (addr : String) (calls : List (Int × String × Int))
    (h : exceptOk (cap.chainIdAt 0) = true) :
    (runCalls keccak cap calls (mkLazyMinter addr) 0).2 ≤ 1 :=
  runCalls_le_one keccak cap calls (mkLazyMinter addr) 0 (Or.inl ⟨rfl, rfl, h⟩)

/-- Claim C5 witness: a concrete two-call run makes at most one chain-id
query. -/
theorem C5_chain_query_at_most_once_witness :
    exceptOk (demoCap.chainIdAt 0) = true ∧
    (runCalls demoHash demoCap [(1, "ipfs://abc", 0), (2, "ipfs://def", 5)]
      (mkLazyMinter demoAddr) 0).2 ≤ 1 :=
  ⟨rfl, C5_chain_query_at_most_once demoHash demoCap demoAddr
    [(1, "ipfs://abc", 0), (2, "ipfs://def", 5)] rfl⟩

/-- Claim C6: on a fixed Signer instance, a successful createVoucher call
followed by a second call with the identical (tokenId, uri, minPrice)
returns the identical outcome — in particular a byte-identical digest
(the domain is fixed by the cache, and the pipeline is a pure function of
domain, schema and voucher). -/
theorem C6_digest_deterministic (keccak : List Byte → List Byte) (cap : SignerCap)
    (m : LazyMinter) (q : Nat) (t : Int) (u : String) (p : Int)
    (h : exceptOk (createVoucher keccak cap m q t u p).1 = true) :
    (createVoucher keccak cap (createVoucher keccak cap m q t u p).2.1
        (createVoucher keccak cap m q t u p).2.2 t u p).1 =
      (createVoucher keccak cap m q t u p).1 := by
  cases hd : m.domain? with
  | some d =>
    have h1 := createVoucher_resolved_result keccak cap m q t u p d hd
    simp [h1]
  | none =>
    cases hc : cap.chainIdAt q with
    | error e =>
      cases e
      rw [createVoucher_domain_fail keccak cap m q t u p hd hc] at h
      exact absurd h (by simp [exceptOk])
    | ok c =>
      have h1 := createVoucher_resolve_result keccak cap m q t u p c hd hc
      have h2 := createVoucher_resolved_result keccak cap (withDomain m c) (q + 1)
        t u p (resolvedDomain m c) rfl
      simp only [h1]
      rw [h2]
      simp [withDomain]

/-- Claim C6 witness: the determinism statement at the concrete demo call. -/
theorem C6_digest_deterministic_witness :
    exceptOk demoRun.1 = true ∧
    (createVoucher demoHash demoCap demoRun.2.1 demoRun.2.2 1 "ipfs://abc" 0).1 =
      demoRun.1 :=
  ⟨rfl, C6_digest_deterministic demoHash demoCap (mkLazyMinter demoAddr) 0 1
    "ipfs://abc" 0 rfl⟩

/-- Claim C7: on the first createVoucher call of a freshly constructed
minter whose chain-id query answers c, the resolved and cached signing
domain is exactly name "LazyNFT-Voucher", version "1", the
constructor-supplied contract address, and chainId c. -/
theorem C7_first_call_domain (keccak : List Byte → List Byte) (cap : SignerCap)
    (addr : String) (t : Int) (u : String) (p : Int) (c : Int)
    (hc : cap.chainIdAt 0 = Except.ok c) :
    (createVoucher keccak cap (mkLazyMinter addr) 0 t u p).2.1.domain? =
      some ⟨"LazyNFT-Voucher", "1", addr, c⟩ := by
  have hst := createVoucher_state keccak cap (mkLazyMinter addr) 0 t u p
  rw [signingDomain_resolve cap (mkLazyMinter addr) 0 c rfl hc] at hst
  rw [hst]
  rfl

/-- Claim C7 witness: the cached domain of the concrete demo first call. -/
theorem C7_first_call_domain_witness :
    (createVoucher demoHash demoCap (mkLazyMinter demoAddr) 0 1 "ipfs://abc" 0).2.1.domain? =
      some ⟨"LazyNFT-Voucher", "1", demoAddr, 31337⟩ :=
  C7_first_call_domain demoHash demoCap demoAddr 1 "ipfs://abc" 0 31337 rfl

/-- Claim C8: calling createVoucher with the minPrice argument omitted is
the JavaScript default-parameter call with minPrice = 0: it returns the
same voucher, digest, signature and state as the explicit three-argument
call with 0. -/
theorem C8_default_minPrice (keccak : List Byte → List Byte) (cap : SignerCap)
    (m : LazyMinter) (q : Nat) (t : Int) (u : String) :
    createVoucherNoPrice keccak cap m q t u = createVoucher keccak cap m q t u 0 :=
  rfl

/-- Claim C9: a createVoucher call can change no Signer-instance state
other than the domain cache — the contract address and the type schema are
returned unchanged, and the domain slot is either exactly as before or was
filled for the first time (the injected signing capability lives outside
the instance state and is untouched by construction of the model). -/
theorem C9_frame (keccak : List Byte → List Byte) (cap : SignerCap)
    (m : LazyMinter) (q : Nat) (t : Int) (u : String) (p : Int)
    (h : exceptOk (createVoucher keccak cap m q t u p).1 = true) :
    (createVoucher keccak cap m q t u p).2.1.contractAddress = m.contractAddress ∧
    (createVoucher keccak cap m q t u p).2.1.types = m.types ∧
    ((createVoucher keccak cap m q t u p).2.1.domain? = m.domain? ∨
      (m.domain? = none ∧ (createVoucher keccak cap m q t u p).2.1.domain? ≠ none)) := by
  have hst := createVoucher_state keccak cap m q t u p
  cases hd : m.domain? with
  | some d =>
    rw [signingDomain_cached cap m q d hd] at hst
    rw [hst]
    exact ⟨rfl, rfl, Or.inl hd⟩
  | none =>
    cases hc : cap.chainIdAt q with
    | error e =>
      cases e
      rw [signingDomain_fail cap m q hd hc] at hst
      rw [hst]
      exact ⟨rfl, rfl, Or.inl hd⟩
    | ok c =>
      rw [signingDomain_resolve cap m q c hd hc] at hst
      rw [hst]
      refine ⟨rfl, rfl, Or.inr ⟨rfl, ?_⟩⟩
      intro hcon
      simp [withDomain] at hcon

/-- Claim C9 witness: the frame condition at the concrete demo call. -/
theorem C9_frame_witness :
    demoRun.2.1.contractAddress = (mkLazyMinter demoAddr).contractAddress ∧
    demoRun.2.1.types = (mkLazyMinter demoAddr).types ∧
    (demoRun.2.1.domain? = (mkLazyMinter demoAddr).domain? ∨
      ((mkLazyMinter demoAddr).domain? = none ∧ demoRun.2.1.domain? ≠ none)) :=
  C9_frame demoHash demoCap (mkLazyMinter demoAddr) 0 1 "ipfs://abc" 0 rfl

/-- Claim C10: when the domain resolves (chain-id query answers c) but the
call then fails in the signing step, the instance nevertheless transitions
to the resolved state: the domain is cached, the query was counted, and a
subsequent identical call makes no further chain-id query (its query count
stays put), even though the failing call returned no voucher, digest or
signature. -/
theorem C10_sign_failure_still_caches (keccak : List Byte → List Byte)
    (cap : SignerCap) (m : LazyMinter) (q : Nat) (t : Int) (u : String) (p : Int)
    (c : Int) (h : m.domain? = none) (hc : cap.chainIdAt q = Except.ok c)
    (hs : (createVoucher keccak cap m q t u p).1 = Except.error LMError.signingError) :
    (createVoucher keccak cap m q t u p).2.1.domain? = some (resolvedDomain m c) ∧
    (createVoucher keccak cap m q t u p).2.2 = q + 1 ∧
    (createVoucher keccak cap (createVoucher keccak cap m q t u p).2.1
      (q + 1) t u p).2.2 = q + 1 := by
  have hst := createVoucher_state keccak cap m q t u p
  rw [signingDomain_resolve cap m q c h hc] at hst
  refine ⟨?_, ?_, ?_⟩
  · rw [hst]
    rfl
  · rw [hst]
  · have hst2 := createVoucher_state keccak cap (withDomain m c) (q + 1) t u p
    rw [signingDomain_cached cap (withDomain m c) (q + 1) (resolvedDomain m c) rfl] at hst2
    rw [hst]
    show (createVoucher keccak cap (withDomain m c, q + 1).1 (q + 1) t u p).2.2 = q + 1
    rw [show ((withDomain m c, q + 1).1 : LazyMinter) = withDomain m c from rfl, hst2]

/-- Claim C10 witness: the sign-failure behaviour at a concrete signer
whose raw signing primitive rejects. -/
theorem C10_sign_failure_still_caches_witness :
    demoSignFailRun.2.1.domain? = some (resolvedDomain (mkLazyMinter demoAddr) 31337) ∧
    demoSignFailRun.2.2 = 1 ∧
    (createVoucher demoHash demoFailSignCap demoSignFailRun.2.1 1 1 "ipfs://abc" 0).2.2 = 1 :=
  C10_sign_failure_still_caches demoHash demoFailSignCap (mkLazyMinter demoAddr)
    0 1 "ipfs://abc" 0 31337 rfl rfl rfl
